import Mathlib

/-!
Verification of the Savlinks link-resolution cache layer.

Shallow embedding of:
  * `server/app/services/redis_service.py` (class `RedisService`)
  * `server/app/routes/redirect.py` (`redirect_short_url`,
    `increment_click_async`, `increment_click_count`)
  * `server/app/models/link.py` (class `Link`)
  * `server/app/config.py` (`Config.RESERVED_SLUGS`)

Timestamps (`datetime`) are modelled as `Nat`; the Redis store is a list of
(key, value, absolute-expiry) entries; an entry whose expiry has passed is
observationally absent, matching Redis TTL semantics.  Transport failures of
the Redis client are modelled by a `CacheHealth` flag: every raw client
operation is wrapped in `tryCache`, which raises (returns `.error`) when the
connection is failing — the service methods catch that error exactly where
the Python code has an `except redis.RedisError` handler.  An unestablished
connection (`RedisService._instance is None`) is the `none` case of the
`Option CacheHealth` client argument.
-/

namespace Savlinks

/-- Snapshot stored in the cache, from `Link.to_cache_dict` in
`app/models/link.py`: `{original_url, is_active, expires_at}`. -/
structure CacheDict where
  original_url : String
  is_active : Bool
  expires_at : Option Nat
deriving DecidableEq, Repr

/-- Durable-store record, the fields of `Link` that the resolution path
reads (`app/models/link.py`). -/
structure LinkRec where
  slug : String
  original_url : String
  clicks : Nat
  is_active : Bool
  expires_at : Option Nat
deriving DecidableEq, Repr

/-- `Link.is_expired`: `False` when `expires_at` is null, else
`datetime.utcnow() > expires_at`. -/
def LinkRec.is_expired (now : Nat) (l : LinkRec) : Bool :=
  match l.expires_at with
  | none => false
  | some e => now > e

/-- `Link.to_cache_dict`: minimal data for the Redis cache. -/
def LinkRec.to_cache_dict (l : LinkRec) : CacheDict :=
  ⟨l.original_url, l.is_active, l.expires_at⟩

/-- A Redis value.  The service stores JSON link dicts under the link
namespace, the string "1" under the blacklist namespace, user ids under the
reset namespace and integer counters under the rate namespace; `json.dumps`
/ `json.loads` / `int()` round-trips are modelled by the constructors. -/
inductive RVal where
  | js (d : CacheDict)
  | str (v : String)
  | num (v : Nat)
deriving DecidableEq, Repr

/-- One Redis key slot: value plus absolute expiry (`none` = no TTL). -/
structure REntry where
  key : String
  val : RVal
  expiry : Option Nat
deriving DecidableEq, Repr

abbrev RedisState := List REntry

/-- A key slot is observable at time `now` iff it has no TTL or the TTL has
not yet elapsed (`SETEX key ttl v` at time `t` lives while `now < t + ttl`). -/
def REntry.live (now : Nat) (e : REntry) : Bool :=
  match e.expiry with
  | none => true
  | some t => now < t

/-- Redis `GET`: the value of the key if present and not expired. -/
def rget (now : Nat) (st : RedisState) (k : String) : Option RVal :=
  (st.find? (fun e => e.key == k && e.live now)).map (·.val)

/-- Redis `SETEX`: overwrite the key with a fresh TTL. -/
def rset (now : Nat) (st : RedisState) (k : String) (v : RVal) (ttl : Nat) :
    RedisState :=
  ⟨k, v, some (now + ttl)⟩ :: st.filter (fun e => e.key ≠ k)

/-- Redis `DEL`. -/
def rdel (st : RedisState) (k : String) : RedisState :=
  st.filter (fun e => e.key ≠ k)

/-- Redis `INCR`: bump a live integer key in place (TTL preserved); on a
missing/expired key, create it with value 1 and no TTL. -/
def rincr (now : Nat) (st : RedisState) (k : String) : RedisState :=
  if (st.find? (fun e => e.key == k && e.live now)).isSome then
    st.map (fun e =>
      if e.key == k then
        match e.val with
        | RVal.num v => { e with val := RVal.num (v + 1) }
        | _ => e
      else e)
  else ⟨k, RVal.num 1, none⟩ :: st.filter (fun e => e.key ≠ k)

/-- Health of the established connection: `failing` makes every client
operation raise `redis.RedisError`. -/
inductive CacheHealth where
  | ok
  | failing
deriving DecidableEq, Repr

/-- A raw client operation: succeeds, or raises on a failing transport.
Service methods pattern-match the `.error` case exactly where the Python
code has an `except redis.RedisError` handler. -/
def tryCache {α : Type} (h : CacheHealth) (a : α) : Except Unit α :=
  match h with
  | .ok => .ok a
  | .failing => .error ()

/-- Key namespaces, from `redis_service.py` f-strings. -/
def linkKey (slug : String) : String := "cinbrainlinks:link:" ++ slug

def blacklistKey (jti : String) : String := "cinbrainlinks:blacklist:" ++ jti

def resetKey (token : String) : String := "cinbrainlinks:reset:" ++ token

def rateKey (k : String) : String := "cinbrainlinks:rate:" ++ k

/-- Observable side effects of one resolution call, tallied at each client /
database operation site. -/
structure Effects where
  cacheReads : Nat := 0
  cacheWrites : Nat := 0
  cacheInvalidations : Nat := 0
  dbReads : Nat := 0
  dbWrites : Nat := 0
  clickDispatches : Nat := 0
deriving DecidableEq, Repr

def Effects.add (a b : Effects) : Effects :=
  ⟨a.cacheReads + b.cacheReads, a.cacheWrites + b.cacheWrites,
   a.cacheInvalidations + b.cacheInvalidations, a.dbReads + b.dbReads,
   a.dbWrites + b.dbWrites, a.clickDispatches + b.clickDispatches⟩

@[simp] theorem Effects.add_cacheReads (a b : Effects) :
    (a.add b).cacheReads = a.cacheReads + b.cacheReads := rfl

@[simp] theorem Effects.add_cacheWrites (a b : Effects) :
    (a.add b).cacheWrites = a.cacheWrites + b.cacheWrites := rfl

@[simp] theorem Effects.add_cacheInvalidations (a b : Effects) :
    (a.add b).cacheInvalidations = a.cacheInvalidations + b.cacheInvalidations := rfl

@[simp] theorem Effects.add_dbReads (a b : Effects) :
    (a.add b).dbReads = a.dbReads + b.dbReads := rfl

@[simp] theorem Effects.add_dbWrites (a b : Effects) :
    (a.add b).dbWrites = a.dbWrites + b.dbWrites := rfl

@[simp] theorem Effects.add_clickDispatches (a b : Effects) :
    (a.add b).clickDispatches = a.clickDispatches + b.clickDispatches := rfl

/-! ## RedisService methods

Each method takes the client (`none` when `RedisService._instance is None`),
the current time, and the cache state; it returns the new state and its
Python return value, plus an `Effects` tally for the link-cache methods used
by the resolver. -/

/-- `RedisService.cache_link`: `SETEX` the JSON snapshot under the link key
(TTL defaults to `CACHE_TTL_LINK = 3600`); unavailability returns `False`
untouched, a `redis.RedisError` is caught and returns `False`. -/
def cache_link (c : Option CacheHealth) (now : Nat) (st : RedisState)
    (slug : String) (d : CacheDict) (ttl : Nat := 3600) :
    RedisState × Bool × Effects :=
  match c with
  | none => (st, false, {})
  | some h =>
    match tryCache h (rset now st (linkKey slug) (RVal.js d) ttl) with
    | .ok st1 => (st1, true, { cacheWrites := 1 })
    | .error _ => (st, false, { cacheWrites := 1 })

/-- `RedisService.invalidate_link_cache`: `DEL` the link key. -/
def invalidate_link_cache (c : Option CacheHealth) (st : RedisState)
    (slug : String) : RedisState × Bool × Effects :=
  match c with
  | none => (st, false, {})
  | some h =>
    match tryCache h (rdel st (linkKey slug)) with
    | .ok st1 => (st1, true, { cacheInvalidations := 1 })
    | .error _ => (st, false, { cacheInvalidations := 1 })

/-- `RedisService.get_cached_link`: `GET` the link key; on a hit whose
`expires_at` has passed, invalidate the entry (delete-on-read) and report a
miss; a `redis.RedisError` is caught and reported as a miss. -/
def get_cached_link (c : Option CacheHealth) (now : Nat) (st : RedisState)
    (slug : String) : RedisState × Option CacheDict × Effects :=
  match c with
  | none => (st, none, {})
  | some h =>
    match tryCache h (rget now st (linkKey slug)) with
    | .error _ => (st, none, { cacheReads := 1 })
    | .ok data =>
      match data with
      | some (RVal.js d) =>
        match d.expires_at with
        | some e =>
          if now > e then
            match invalidate_link_cache (some h) st slug with
            | (st1, _, eff) => (st1, none, Effects.add { cacheReads := 1 } eff)
          else (st, some d, { cacheReads := 1 })
        | none => (st, some d, { cacheReads := 1 })
      | _ => (st, none, { cacheReads := 1 })

/-- `RedisService.blacklist_token`: `SETEX key ttl "1"` (TTL defaults to
`CACHE_TTL_BLACKLIST = 86400 * 31`); unavailability or a caught
`redis.RedisError` returns `False` with the store untouched. -/
def blacklist_token (c : Option CacheHealth) (now : Nat) (st : RedisState)
    (jti : String) (ttl : Nat := 2678400) : RedisState × Bool :=
  match c with
  | none => (st, false)
  | some h =>
    match tryCache h (rset now st (blacklistKey jti) (RVal.str "1") ttl) with
    | .ok st1 => (st1, true)
    | .error _ => (st, false)

/-- `RedisService.is_token_blacklisted`: `EXISTS key > 0`; unavailability or
a caught `redis.RedisError` returns `False` (not revoked). -/
def is_token_blacklisted (c : Option CacheHealth) (now : Nat)
    (st : RedisState) (jti : String) : Bool :=
  match c with
  | none => false
  | some h =>
    match tryCache h (rget now st (blacklistKey jti)).isSome with
    | .ok b => b
    | .error _ => false

/-- `RedisService.store_reset_token`: `SETEX key ttl user_id` (TTL defaults
to `PASSWORD_RESET_TOKEN_EXPIRES = 3600`). -/
def store_reset_token (c : Option CacheHealth) (now : Nat) (st : RedisState)
    (token user_id : String) (ttl : Nat := 3600) : RedisState × Bool :=
  match c with
  | none => (st, false)
  | some h =>
    match tryCache h (rset now st (resetKey token) (RVal.str user_id) ttl) with
    | .ok st1 => (st1, true)
    | .error _ => (st, false)

/-- `RedisService.get_reset_token_user`: `GET key`, returning the stored
user id (this namespace only ever holds user-id strings); a pure read, the
store is not modified. -/
def get_reset_token_user (c : Option CacheHealth) (now : Nat)
    (st : RedisState) (token : String) : Option String :=
  match c with
  | none => none
  | some h =>
    match tryCache h (rget now st (resetKey token)) with
    | .ok (some (RVal.str uid)) => some uid
    | .ok _ => none
    | .error _ => none

/-- `RedisService.invalidate_reset_token`: `DEL key`. -/
def invalidate_reset_token (c : Option CacheHealth) (st : RedisState)
    (token : String) : RedisState × Bool :=
  match c with
  | none => (st, false)
  | some h =>
    match tryCache h (rdel st (resetKey token)) with
    | .ok st1 => (st1, true)
    | .error _ => (st, false)

/-- `RedisService.check_rate_limit`: fixed-window counter.  Unavailability
or a caught `redis.RedisError` fails open with `(True, limit)`.  First
request in a window does `SETEX key window 1` and allows with
`limit - 1` remaining; afterwards a stored count `>= limit` denies with 0
remaining, and otherwise `INCR` allows with `limit - count - 1` remaining.
The rate namespace only ever holds integer counters, so `int(current)` is
the `RVal.num` projection. -/
def check_rate_limit (c : Option CacheHealth) (now : Nat) (st : RedisState)
    (key : String) (limit : Int) (window : Nat) : RedisState × Bool × Int :=
  match c with
  | none => (st, true, limit)
  | some h =>
    match tryCache h (rget now st (rateKey key)) with
    | .error _ => (st, true, limit)
    | .ok none =>
      match tryCache h (rset now st (rateKey key) (RVal.num 1) window) with
      | .ok st1 => (st1, true, limit - 1)
      | .error _ => (st, true, limit)
    | .ok (some v) =>
      let current : Nat := match v with | RVal.num m => m | _ => 0
      if (current : Int) ≥ limit then (st, false, 0)
      else
        match tryCache h (rincr now st (rateKey key)) with
        | .ok st1 => (st1, true, limit - current - 1)
        | .error _ => (st, true, limit)

/-! ## The redirect route (`app/routes/redirect.py`) -/

/-- Python `str.lower()` (slugs are ASCII), written on the character list
so that it evaluates by kernel reduction. -/
def pyLower (s : String) : String := ⟨s.data.map Char.toLower⟩

/-- Python `str.strip()`: drop whitespace from both ends. -/
def stripChars (l : List Char) : List Char :=
  ((l.dropWhile Char.isWhitespace).reverse.dropWhile Char.isWhitespace).reverse

/-- `slug.lower().strip()` at the top of `redirect_short_url`. -/
def pyNormalize (s : String) : String := ⟨stripChars (pyLower s).data⟩

/-- `Config.RESERVED_SLUGS` from `app/config.py`. -/
def RESERVED_SLUGS : List String :=
  ["admin", "api", "login", "logout", "register", "signup",
   "dashboard", "settings", "profile", "account", "user", "users",
   "link", "links", "health", "status", "static", "assets",
   "auth", "oauth", "callback", "reset", "password", "verify",
   "help", "support", "contact", "about", "terms", "privacy",
   "blog", "docs", "documentation", "app", "www", "mail",
   "unsubscribe", "preferences", "analytics", "stats", "metrics"]

/-- HTTP outcome of `redirect_short_url`: 400, 404, 410 (disabled),
410 (expired), or a 302 redirect. -/
inductive HttpResult where
  | badRequest
  | notFound
  | goneDisabled
  | goneExpired
  | redirect (url : String)
deriving DecidableEq, Repr

/-- `redirect_short_url(slug)`:
1. normalize, reject empty (400) and reserved (404) slugs;
2. `RedisService().get_cached_link` (errors caught, treated as a miss);
3. on a hit revalidate `is_active` / `expires_at` — disabled → 410,
   stale-expired → invalidate and 410, else dispatch the click thread and
   302;
4. on a miss query the durable store — absent → 404, inactive → 410,
   expired → 410, else best-effort `cache_link` write-back, dispatch the
   click thread and 302.
The click thread itself runs detached (see `increment_click_async`); here
only its dispatch is tallied.  The durable store is read, never written. -/
def redirect_short_url (c : Option CacheHealth) (now : Nat) (st : RedisState)
    (db : List LinkRec) (rawSlug : String) :
    HttpResult × RedisState × Effects :=
  let slug := pyNormalize rawSlug
  if slug = "" then (.badRequest, st, {})
  else if slug ∈ RESERVED_SLUGS then (.notFound, st, {})
  else
    match get_cached_link c now st slug with
    | (st1, some d, e1) =>
      if !d.is_active then (.goneDisabled, st1, e1)
      else
        match d.expires_at with
        | some e =>
          if now > e then
            match invalidate_link_cache c st1 slug with
            | (st2, _, e2) => (.goneExpired, st2, e1.add e2)
          else (.redirect d.original_url, st1, e1.add { clickDispatches := 1 })
        | none => (.redirect d.original_url, st1, e1.add { clickDispatches := 1 })
    | (st1, none, e1) =>
      let e2 := e1.add { dbReads := 1 }
      match db.find? (fun l => l.slug == slug) with
      | none => (.notFound, st1, e2)
      | some link =>
        if !link.is_active then (.goneDisabled, st1, e2)
        else if link.is_expired now then (.goneExpired, st1, e2)
        else
          match cache_link c now st1 slug link.to_cache_dict with
          | (st2, _, e3) =>
            (.redirect link.original_url, st2,
             (e2.add e3).add { clickDispatches := 1 })

/-! ## The detached click counter (`increment_click_async`) -/

/-- Failure scenarios of the detached click thread: the query raises, or
the commit raises (both are caught inside the thread and rolled back). -/
inductive DbMode where
  | ok
  | queryFails
  | commitFails
deriving DecidableEq, Repr

/-- `link.clicks += 1` on the first record matching the slug (the in-place
mutation of the single ORM object returned by `.first()`). -/
def bumpFirst : List LinkRec → String → List LinkRec
  | [], _ => []
  | l :: ls, s =>
    if l.slug = s then { l with clicks := l.clicks + 1 } :: ls
    else l :: bumpFirst ls s

/-- `increment_click_async(app, slug)`: query the record; when found, bump
`clicks` and commit; any exception rolls the session back, leaving the
durable state unchanged, and is swallowed.  Returns the new durable state
and the number of commit attempts (the function never retries). -/
def increment_click_async (mode : DbMode) (db : List LinkRec)
    (slug : String) : List LinkRec × Nat :=
  match mode with
  | .queryFails => (db, 0)
  | _ =>
    match db.find? (fun l => l.slug == slug) with
    | none => (db, 0)
    | some _ =>
      match mode with
      | .commitFails => (db, 1)
      | _ => (bumpFirst db slug, 1)

/-- A resolution followed by the detached click thread it dispatched (if
any): the composition of `redirect_short_url` with `increment_click_async`.
The HTTP result is produced before the thread runs. -/
def resolveAndClick (c : Option CacheHealth) (now : Nat) (st : RedisState)
    (db : List LinkRec) (rawSlug : String) (mode : DbMode) :
    HttpResult × RedisState × List LinkRec × Nat :=
  match redirect_short_url c now st db rawSlug with
  | (r, st1, eff) =>
    if eff.clickDispatches = 0 then (r, st1, db, 0)
    else
      match increment_click_async mode db (pyNormalize rawSlug) with
      | (db1, attempts) => (r, st1, db1, attempts)

/-! ## Connection lifecycle (`RedisService.__init__` / `_connect`) -/

/-- Process-wide class state: `RedisService._connection_attempted` and
`RedisService._instance`. -/
structure ProcState where
  connection_attempted : Bool
  redisInstance : Option CacheHealth
deriving DecidableEq, Repr

/-- Fresh process: no attempt made, no instance. -/
def ProcState.init : ProcState := ⟨false, none⟩

/-- Outcome of `RedisService._connect` for this process: `none` when the
URL is unset or `from_url` / `ping` raises (instance stays `None`), `some h`
when the connection is established with subsequent transport health `h`. -/
def connect (env : Option CacheHealth) (_ps : ProcState) : ProcState :=
  { connection_attempted := true, redisInstance := env }

/-- `RedisService.__init__`: run `_connect` only if no attempt was made
yet, then alias `self.client = RedisService._instance`.  Returns the new
process state, the instance's client, and how many `_connect` calls were
made (0 or 1). -/
def mkService (env : Option CacheHealth) (ps : ProcState) :
    ProcState × Option CacheHealth × Nat :=
  if ps.connection_attempted then (ps, ps.redisInstance, 0)
  else
    match connect env ps with
    | ps1 => (ps1, ps1.redisInstance, 1)

/-- `n` consecutive `RedisService()` constructions in one process: final
process state, the clients of all constructed instances, and the total
number of `_connect` calls. -/
def runConstructions (env : Option CacheHealth) :
    Nat → ProcState × List (Option CacheHealth) × Nat
  | 0 => (ProcState.init, [], 0)
  | n + 1 =>
    match runConstructions env n with
    | (ps, clients, k) =>
      match mkService env ps with
      | (ps1, client, dk) => (ps1, client :: clients, k + dk)

/-! ## Store lemmas -/

theorem find?_filter_ne (now : Nat) (st : RedisState) (k : String) :
    (st.filter (fun e => e.key ≠ k)).find?
      (fun e => e.key == k && e.live now) = none := by
  rw [List.find?_eq_none]
  intro e he
  have hk := (List.mem_filter.mp he).2
  simp only [ne_eq, decide_not, Bool.not_eq_true', decide_eq_false_iff_not] at hk
  simp [hk]

/-- After `DEL k`, a `GET k` misses at every time. -/
theorem rget_rdel_self (now : Nat) (st : RedisState) (k : String) :
    rget now (rdel st k) k = none := by
  simp only [rget, rdel]
  rw [find?_filter_ne]
  rfl

/-- After `SETEX k ttl v` at time `now`, a `GET k` at time `now2` returns
`v` while the TTL lasts and misses afterwards. -/
theorem rget_rset_self (now now2 : Nat) (st : RedisState) (k : String)
    (v : RVal) (ttl : Nat) :
    rget now2 (rset now st k v ttl) k =
      if now2 < now + ttl then some v else none := by
  by_cases h : now2 < now + ttl
  · simp [rget, rset, List.find?_cons_of_pos, REntry.live, h]
  · simp only [rget, rset]
    rw [List.find?_cons_of_neg, find?_filter_ne, if_neg h]
    · rfl
    · simp [REntry.live, h]

/-! ## Effect-shape lemmas for the resolver -/

/-- `get_cached_link` performs no write-back, at most one invalidation, no
durable-store access and no click dispatch. -/
theorem get_cached_link_eff (c : Option CacheHealth) (now : Nat)
    (st : RedisState) (slug : String) :
    (get_cached_link c now st slug).2.2.cacheWrites = 0 ∧
    (get_cached_link c now st slug).2.2.cacheInvalidations ≤ 1 ∧
    (get_cached_link c now st slug).2.2.dbReads = 0 ∧
    (get_cached_link c now st slug).2.2.dbWrites = 0 ∧
    (get_cached_link c now st slug).2.2.clickDispatches = 0 := by
  rcases c with _ | h
  · simp [get_cached_link]
  · cases h
    · rcases hr : rget now st (linkKey slug) with _ | v
      · simp [get_cached_link, tryCache, hr]
      · rcases v with d | s | n
        · rcases hd : d.expires_at with _ | e
          · simp [get_cached_link, tryCache, hr, hd]
          · by_cases hgt : now > e
            · simp [get_cached_link, invalidate_link_cache, tryCache, hr, hd,
                hgt, Effects.add]
            · simp [get_cached_link, tryCache, hr, hd, hgt]
        · simp [get_cached_link, tryCache, hr]
        · simp [get_cached_link, tryCache, hr]
    · simp [get_cached_link, tryCache]

/-- A cache hit leaves the store untouched, tallies exactly one read, and is
only reported when the snapshot's `expires_at` has not passed (delete-on-read
filters the rest). -/
theorem get_cached_link_hit (c : Option CacheHealth) (now : Nat)
    (st st1 : RedisState) (slug : String) (d : CacheDict) (e1 : Effects)
    (hg : get_cached_link c now st slug = (st1, some d, e1)) :
    st1 = st ∧ e1 = { cacheReads := 1 } ∧
    ∀ e, d.expires_at = some e → ¬ now > e := by
  rcases c with _ | h
  · simp [get_cached_link] at hg
  · cases h
    · rcases hr : rget now st (linkKey slug) with _ | v
      · simp [get_cached_link, tryCache, hr] at hg
      · rcases v with d0 | s | n
        · rcases hd : d0.expires_at with _ | e0
          · simp only [get_cached_link, tryCache, hr, hd, Prod.mk.injEq,
              Option.some.injEq] at hg
            obtain ⟨h1, h2, h3⟩ := hg
            refine ⟨h1.symm, h3.symm, ?_⟩
            intro e he
            rw [← h2, hd] at he
            cases he
          · by_cases hgt : now > e0
            · simp [get_cached_link, invalidate_link_cache, tryCache, hr, hd,
                hgt] at hg
            · simp only [get_cached_link, tryCache, hr, hd, if_neg hgt,
                Prod.mk.injEq, Option.some.injEq] at hg
              obtain ⟨h1, h2, h3⟩ := hg
              refine ⟨h1.symm, h3.symm, ?_⟩
              intro e he
              rw [← h2, hd] at he
              cases he
              exact hgt
        · simp [get_cached_link, tryCache, hr] at hg
        · simp [get_cached_link, tryCache, hr] at hg
    · simp [get_cached_link, tryCache] at hg

/-- `cache_link` performs at most one write-back and nothing else. -/
theorem cache_link_eff (c : Option CacheHealth) (now : Nat)
    (st : RedisState) (slug : String) (d : CacheDict) (ttl : Nat) :
    (cache_link c now st slug d ttl).2.2.cacheWrites ≤ 1 ∧
    (cache_link c now st slug d ttl).2.2.cacheInvalidations = 0 ∧
    (cache_link c now st slug d ttl).2.2.dbReads = 0 ∧
    (cache_link c now st slug d ttl).2.2.dbWrites = 0 ∧
    (cache_link c now st slug d ttl).2.2.clickDispatches = 0 := by
  rcases c with _ | h
  · simp [cache_link]
  · cases h <;> simp [cache_link, tryCache]

/-! ## Claims -/

/-- Claim C10: `check_rate_limit` always allows the first request of a
window regardless of the limit: with no counter stored for the key it
writes count 1 with TTL `window` and returns `(True, limit - 1)`, even for
`limit = 0`, where the remaining count comes out as `-1`; the
count-versus-limit comparison only applies from the second request on. -/
theorem C10_first_request_always_allowed :
    (∀ (st : RedisState) (key : String) (limit : Int) (window now : Nat),
      rget now st (rateKey key) = none →
      check_rate_limit (some CacheHealth.ok) now st key limit window =
        (rset now st (rateKey key) (RVal.num 1) window, true, limit - 1)) ∧
    check_rate_limit (some CacheHealth.ok) 0 [] "k" 0 60 =
      (rset 0 [] (rateKey "k") (RVal.num 1) 60, true, -1) := by
  constructor
  · intro st key limit window now h
    simp [check_rate_limit, tryCache, h]
  · rfl

/-- Concrete instance of C10: a fresh key with `limit = 0` is allowed with
remaining `0 - 1`. -/
theorem C10_witness :
    check_rate_limit (some CacheHealth.ok) 7 [] "ip1" 0 60 =
      (rset 7 [] (rateKey "ip1") (RVal.num 1) 60, true, 0 - 1) :=
  C10_first_request_always_allowed.1 [] "ip1" 0 60 7 rfl

/-- Claim C2: with an available cache, `check_rate_limit` writes count 1
with TTL `window` and returns `(True, limit - 1)` when no counter exists;
on later calls in the window it denies with `(False, 0)` once the stored
count reaches the limit and otherwise increments and returns
`(True, limit - count - 1)`; four rapid calls with limit 3 yield
`(True, 2), (True, 1), (True, 0), (False, 0)`. -/
theorem C2_rate_limiter_window :
    (∀ (st : RedisState) (key : String) (limit : Int) (window now : Nat),
      rget now st (rateKey key) = none →
      check_rate_limit (some CacheHealth.ok) now st key limit window =
        (rset now st (rateKey key) (RVal.num 1) window, true, limit - 1)) ∧
    (∀ (st : RedisState) (key : String) (limit : Int) (window now n : Nat),
      rget now st (rateKey key) = some (RVal.num n) →
      (n : Int) ≥ limit →
      check_rate_limit (some CacheHealth.ok) now st key limit window =
        (st, false, 0)) ∧
    (∀ (st : RedisState) (key : String) (limit : Int) (window now n : Nat),
      rget now st (rateKey key) = some (RVal.num n) →
      (n : Int) < limit →
      check_rate_limit (some CacheHealth.ok) now st key limit window =
        (rincr now st (rateKey key), true, limit - n - 1)) ∧
    ((check_rate_limit (some CacheHealth.ok) 100 [] "k" 3 60).2 = (true, 2) ∧
     (check_rate_limit (some CacheHealth.ok) 100
       (check_rate_limit (some CacheHealth.ok) 100 [] "k" 3 60).1
       "k" 3 60).2 = (true, 1) ∧
     (check_rate_limit (some CacheHealth.ok) 100
       (check_rate_limit (some CacheHealth.ok) 100
         (check_rate_limit (some CacheHealth.ok) 100 [] "k" 3 60).1
         "k" 3 60).1 "k" 3 60).2 = (true, 0) ∧
     (check_rate_limit (some CacheHealth.ok) 100
       (check_rate_limit (some CacheHealth.ok) 100
         (check_rate_limit (some CacheHealth.ok) 100
           (check_rate_limit (some CacheHealth.ok) 100 [] "k" 3 60).1
           "k" 3 60).1 "k" 3 60).1 "k" 3 60).2 = (false, 0)) := by
  refine ⟨?_, ?_, ?_, rfl, rfl, rfl, rfl⟩
  · intro st key limit window now h
    simp [check_rate_limit, tryCache, h]
  · intro st key limit window now n h hge
    simp [check_rate_limit, tryCache, h, hge]
  · intro st key limit window now n h hlt
    simp [check_rate_limit, tryCache, h, not_le.mpr hlt]

/-- Concrete instances of C2: the fresh-key, at-limit and below-limit
cases. -/
theorem C2_witness :
    check_rate_limit (some CacheHealth.ok) 5 [] "userA" 3 60 =
      (rset 5 [] (rateKey "userA") (RVal.num 1) 60, true, 3 - 1) ∧
    check_rate_limit (some CacheHealth.ok) 5
        [⟨rateKey "userA", RVal.num 3, some 65⟩] "userA" 3 60 =
      ([⟨rateKey "userA", RVal.num 3, some 65⟩], false, 0) ∧
    check_rate_limit (some CacheHealth.ok) 5
        [⟨rateKey "userA", RVal.num 1, some 65⟩] "userA" 3 60 =
      (rincr 5 [⟨rateKey "userA", RVal.num 1, some 65⟩] (rateKey "userA"),
       true, 3 - 1 - 1) :=
  ⟨C2_rate_limiter_window.1 [] "userA" 3 60 5 rfl,
   C2_rate_limiter_window.2.1 [⟨rateKey "userA", RVal.num 3, some 65⟩]
     "userA" 3 60 5 3 rfl (by decide),
   C2_rate_limiter_window.2.2.1 [⟨rateKey "userA", RVal.num 1, some 65⟩]
     "userA" 3 60 5 1 rfl (by decide)⟩

/-- Claim C6: a reset token stored with `store_reset_token` is returned by
`get_reset_token_user` while its TTL lasts — the read is pure and does not
remove the entry, so a second read before invalidation returns the same
user id — and after `invalidate_reset_token` every later read returns
`None`, even at times well before the TTL would have elapsed. -/
theorem C6_reset_token_single_use
    (st : RedisState) (token uid : String) (ttl now : Nat) (ht : 0 < ttl) :
    (store_reset_token (some CacheHealth.ok) now st token uid ttl).2 = true ∧
    get_reset_token_user (some CacheHealth.ok) now
      (store_reset_token (some CacheHealth.ok) now st token uid ttl).1 token =
      some uid ∧
    (∀ now2,
      get_reset_token_user (some CacheHealth.ok) now2
        (invalidate_reset_token (some CacheHealth.ok)
          (store_reset_token (some CacheHealth.ok) now st token uid ttl).1
          token).1 token = none) := by
  refine ⟨rfl, ?_, ?_⟩
  · have h := rget_rset_self now now st (resetKey token) (RVal.str uid) ttl
    rw [if_pos (by omega)] at h
    simp [get_reset_token_user, store_reset_token, invalidate_reset_token,
      tryCache, h]
  · intro now2
    simp [get_reset_token_user, store_reset_token, invalidate_reset_token,
      tryCache, rget_rdel_self]

/-- Concrete instance of C6: store, read back, invalidate, read again while
the TTL is still running. -/
theorem C6_witness :
    (store_reset_token (some CacheHealth.ok) 100 [] "tok" "user-1" 3600).2 =
      true ∧
    get_reset_token_user (some CacheHealth.ok) 100
      (store_reset_token (some CacheHealth.ok) 100 [] "tok" "user-1"
        3600).1 "tok" = some "user-1" ∧
    get_reset_token_user (some CacheHealth.ok) 101
      (invalidate_reset_token (some CacheHealth.ok)
        (store_reset_token (some CacheHealth.ok) 100 [] "tok" "user-1"
          3600).1 "tok").1 "tok" = none := by
  obtain ⟨h1, h2, h3⟩ :=
    C6_reset_token_single_use [] "tok" "user-1" 3600 100 (by decide)
  exact ⟨h1, h2, h3 101⟩

/-- Claim C7: `blacklist_token` followed immediately by
`is_token_blacklisted` reports the token revoked, after the TTL elapses it
reports not revoked with no explicit cleanup, and when the cache is
unavailable (no instance) or failing (transport errors caught), revocation
is a no-op returning `False` and the check reports not revoked — none of
these operations raises. -/
theorem C7_blacklist_degrades_open
    (st : RedisState) (jti : String) (ttl now : Nat) (ht : 0 < ttl) :
    (blacklist_token (some CacheHealth.ok) now st jti ttl).2 = true ∧
    is_token_blacklisted (some CacheHealth.ok) now
      (blacklist_token (some CacheHealth.ok) now st jti ttl).1 jti = true ∧
    (∀ now2, now + ttl ≤ now2 →
      is_token_blacklisted (some CacheHealth.ok) now2
        (blacklist_token (some CacheHealth.ok) now st jti ttl).1 jti =
        false) ∧
    blacklist_token none now st jti ttl = (st, false) ∧
    is_token_blacklisted none now st jti = false ∧
    blacklist_token (some CacheHealth.failing) now st jti ttl = (st, false) ∧
    is_token_blacklisted (some CacheHealth.failing) now st jti = false := by
  refine ⟨rfl, ?_, ?_, rfl, rfl, rfl, rfl⟩
  · have h := rget_rset_self now now st (blacklistKey jti) (RVal.str "1") ttl
    rw [if_pos (by omega)] at h
    simp [is_token_blacklisted, blacklist_token, tryCache, h]
  · intro now2 h2
    have h := rget_rset_self now now2 st (blacklistKey jti) (RVal.str "1") ttl
    rw [if_neg (by omega)] at h
    simp [is_token_blacklisted, blacklist_token, tryCache, h]

/-- Concrete instance of C7: revoke for 50 seconds at time 100; revoked at
time 100, no longer revoked at time 150. -/
theorem C7_witness :
    is_token_blacklisted (some CacheHealth.ok) 100
      (blacklist_token (some CacheHealth.ok) 100 [] "jti-1" 50).1 "jti-1" =
      true ∧
    is_token_blacklisted (some CacheHealth.ok) 150
      (blacklist_token (some CacheHealth.ok) 100 [] "jti-1" 50).1 "jti-1" =
      false ∧
    blacklist_token none 100 [] "jti-1" 50 = ([], false) := by
  obtain ⟨_, h2, h3, h4, _⟩ :=
    C7_blacklist_degrades_open [] "jti-1" 50 100 (by decide)
  exact ⟨h2, h3 150 (by decide), h4⟩

/-- Any run of constructions reaches the attempted state after the first
construction, hands the same client to every instance, and calls
`_connect` exactly `min n 1` times. -/
theorem runConstructions_spec (env : Option CacheHealth) (n : Nat) :
    runConstructions env n =
      ((if n = 0 then ProcState.init else ⟨true, env⟩),
       List.replicate n env, min n 1) := by
  induction n with
  | zero => rfl
  | succ m ih =>
    cases m with
    | zero => rfl
    | succ m0 =>
      have h1 : runConstructions env (m0 + 2) =
          (match runConstructions env (m0 + 1) with
           | (ps, clients, k) =>
             match mkService env ps with
             | (ps1, client, dk) => (ps1, client :: clients, k + dk)) := rfl
      rw [h1, ih]
      simp only [mkService]
      refine Prod.ext (by simp) (Prod.ext ?_ ?_)
      · simp [List.replicate_succ]
      · simp

/-- Claim C9: across any number of `RedisService` constructions in one
process, `_connect` runs at most once; every constructed instance aliases
the single shared instance; and with no established instance every public
operation of the four sub-stores returns its degraded miss/default value
(the functions are total, so nothing is raised). -/
theorem C9_connection_singleton :
    (∀ (env : Option CacheHealth) (n : Nat),
      (runConstructions env n).2.2 ≤ 1) ∧
    (∀ (env : Option CacheHealth) (n : Nat) (cl : Option CacheHealth),
      cl ∈ (runConstructions env n).2.1 →
      cl = (runConstructions env n).1.redisInstance) ∧
    (∀ (now ttl : Nat) (st : RedisState) (slug token uid jti key : String)
       (d : CacheDict) (limit : Int) (window : Nat),
      cache_link none now st slug d ttl = (st, false, {}) ∧
      get_cached_link none now st slug = (st, none, {}) ∧
      invalidate_link_cache none st slug = (st, false, {}) ∧
      blacklist_token none now st jti ttl = (st, false) ∧
      is_token_blacklisted none now st jti = false ∧
      store_reset_token none now st token uid ttl = (st, false) ∧
      get_reset_token_user none now st token = none ∧
      invalidate_reset_token none st token = (st, false) ∧
      check_rate_limit none now st key limit window = (st, true, limit)) := by
  refine ⟨?_, ?_, ?_⟩
  · intro env n
    rw [runConstructions_spec]
    exact min_le_right n 1
  · intro env n cl hcl
    rw [runConstructions_spec] at hcl ⊢
    have := List.eq_of_mem_replicate hcl
    subst this
    cases n <;> simp at hcl ⊢
  · intro now ttl st slug token uid jti key d limit window
    exact ⟨rfl, rfl, rfl, rfl, rfl, rfl, rfl, rfl, rfl⟩

/-- Concrete instance of C9: three constructions in one process make one
`_connect` call and every instance aliases the shared client; with a failed
establishment the rate limiter fails open. -/
theorem C9_witness :
    (runConstructions (some CacheHealth.ok) 3).2.2 ≤ 1 ∧
    some CacheHealth.ok =
      (runConstructions (some CacheHealth.ok) 3).1.redisInstance ∧
    check_rate_limit none 0 [] "k" 5 60 = ([], true, 5) :=
  ⟨C9_connection_singleton.1 (some CacheHealth.ok) 3,
   C9_connection_singleton.2.1 (some CacheHealth.ok) 3
     (some CacheHealth.ok) (by decide),
   (C9_connection_singleton.2.2 0 0 [] "s" "t" "u" "j" "k"
     ⟨"", true, none⟩ 5 60).2.2.2.2.2.2.2.2⟩

/-- Claim C4: a raw slug whose normalized (lowercased, trimmed) form is in
the static reserved set is rejected with NotFound immediately: the cache
and the durable store are untouched and no effect of any kind is
performed. -/
theorem C4_reserved_slug_rejected
    (c : Option CacheHealth) (now : Nat) (st : RedisState)
    (db : List LinkRec) (rawSlug : String)
    (hmem : pyNormalize rawSlug ∈ RESERVED_SLUGS) :
    redirect_short_url c now st db rawSlug =
      (HttpResult.notFound, st, ({} : Effects)) := by
  have hne : pyNormalize rawSlug ≠ "" := by
    intro h
    rw [h] at hmem
    revert hmem
    decide
  simp only [redirect_short_url, if_neg hne, if_pos hmem]

/-- Concrete instance of C4: resolving "  ADMIN  " (normalizing to the
reserved word "admin") on a populated cache and store changes nothing and
returns NotFound. -/
theorem C4_witness :
    redirect_short_url (some CacheHealth.ok) 10
      [⟨linkKey "admin", RVal.js ⟨"u", true, none⟩, some 1000⟩]
      [⟨"admin", "u", 0, true, none⟩] "  ADMIN  " =
      (HttpResult.notFound,
       [⟨linkKey "admin", RVal.js ⟨"u", true, none⟩, some 1000⟩],
       ({} : Effects)) :=
  C4_reserved_slug_rejected (some CacheHealth.ok) 10
    [⟨linkKey "admin", RVal.js ⟨"u", true, none⟩, some 1000⟩]
    [⟨"admin", "u", 0, true, none⟩] "  ADMIN  " (by decide)

/-- Claim C3: a transport-level cache failure — an unestablished connection
(`none`) or a failing connection whose raised `redis.RedisError` is caught —
is treated as a cache miss and never reaches the caller: `get_cached_link`
reports a miss, and for an existing active non-expired link the resolver
still returns the redirect target served from the durable store. -/
theorem C3_cache_failure_treated_as_miss
    (c : Option CacheHealth) (now : Nat) (st : RedisState)
    (db : List LinkRec) (link : LinkRec) (rawSlug : String)
    (hc : c = none ∨ c = some CacheHealth.failing)
    (hne : pyNormalize rawSlug ≠ "")
    (hres : pyNormalize rawSlug ∉ RESERVED_SLUGS)
    (hfind : db.find? (fun l => l.slug == pyNormalize rawSlug) = some link)
    (hact : link.is_active = true)
    (hexp : link.is_expired now = false) :
    (get_cached_link c now st (pyNormalize rawSlug)).2.1 = none ∧
    (redirect_short_url c now st db rawSlug).1 =
      HttpResult.redirect link.original_url := by
  rcases hc with hc | hc <;> subst hc <;>
    exact ⟨by simp [get_cached_link, tryCache],
      by simp [redirect_short_url, get_cached_link, cache_link, tryCache,
        hne, hres, hfind, hact, hexp]⟩

/-- Concrete instance of C3: with a failing transport, an active
non-expired link is still resolved from the durable store. -/
theorem C3_witness :
    (get_cached_link (some CacheHealth.failing) 10
      [⟨linkKey "wxyz", RVal.js ⟨"cachedU", true, none⟩, some 1000⟩]
      (pyNormalize "wxyz")).2.1 = none ∧
    (redirect_short_url (some CacheHealth.failing) 10
      [⟨linkKey "wxyz", RVal.js ⟨"cachedU", true, none⟩, some 1000⟩]
      [⟨"wxyz", "dbU", 0, true, none⟩] "wxyz").1 =
      HttpResult.redirect "dbU" :=
  C3_cache_failure_treated_as_miss (some CacheHealth.failing) 10
    [⟨linkKey "wxyz", RVal.js ⟨"cachedU", true, none⟩, some 1000⟩]
    [⟨"wxyz", "dbU", 0, true, none⟩] ⟨"wxyz", "dbU", 0, true, none⟩ "wxyz"
    (Or.inr rfl) (by decide) (by decide) rfl rfl rfl

/-- Bumping the first matching record is observable as exactly one more
click on the record the query returns. -/
theorem find?_bumpFirst (db : List LinkRec) (s : String) (link : LinkRec)
    (h : db.find? (fun l => l.slug == s) = some link) :
    (bumpFirst db s).find? (fun l => l.slug == s) =
      some { link with clicks := link.clicks + 1 } := by
  induction db with
  | nil => simp at h
  | cons l ls ih =>
    by_cases hs : l.slug = s
    · simp only [bumpFirst, if_pos hs]
      rw [List.find?_cons_of_pos _ (by simp [hs])] at h
      rw [List.find?_cons_of_pos _ (by simp [hs])]
      injection h with h
      subst h
      rfl
    · simp only [bumpFirst, if_neg hs]
      rw [List.find?_cons_of_neg _ (by simp [hs])] at h
      rw [List.find?_cons_of_neg _ (by simp [hs])]
      exact ih h

/-- Claim C8: the detached click thread increments the found record's
clicks by exactly one when the commit succeeds; a query or commit error
leaves the durable state unchanged (rolled back) with at most one commit
attempt (no retry); and no click-counter failure mode ever changes what the
resolver returns to its caller. -/
theorem C8_click_counter_exact_once :
    (∀ (db : List LinkRec) (slug : String) (link : LinkRec),
      db.find? (fun l => l.slug == slug) = some link →
      increment_click_async DbMode.ok db slug = (bumpFirst db slug, 1) ∧
      (bumpFirst db slug).find? (fun l => l.slug == slug) =
        some { link with clicks := link.clicks + 1 }) ∧
    (∀ (db : List LinkRec) (slug : String),
      increment_click_async DbMode.queryFails db slug = (db, 0) ∧
      (increment_click_async DbMode.commitFails db slug).1 = db) ∧
    (∀ (mode : DbMode) (db : List LinkRec) (slug : String),
      (increment_click_async mode db slug).2 ≤ 1) ∧
    (∀ (mode : DbMode) (c : Option CacheHealth) (now : Nat)
       (st : RedisState) (db : List LinkRec) (rawSlug : String),
      (resolveAndClick c now st db rawSlug mode).1 =
        (redirect_short_url c now st db rawSlug).1) := by
  refine ⟨?_, ?_, ?_, ?_⟩
  · intro db slug link h
    exact ⟨by simp [increment_click_async, h], find?_bumpFirst db slug link h⟩
  · intro db slug
    refine ⟨rfl, ?_⟩
    rcases hf : db.find? (fun l => l.slug == slug) with _ | l <;>
      simp [increment_click_async, hf]
  · intro mode db slug
    cases mode <;>
      rcases hf : db.find? (fun l => l.slug == slug) with _ | l <;>
        simp [increment_click_async, hf]
  · intro mode c now st db rawSlug
    rcases hr : redirect_short_url c now st db rawSlug with ⟨r, st1, eff⟩
    simp only [resolveAndClick, hr]
    by_cases h0 : eff.clickDispatches = 0
    · simp [h0]
    · rcases hi : increment_click_async mode db (pyNormalize rawSlug) with
        ⟨db1, att⟩
      simp [h0, hi]

/-- Concrete instance of C8: a successful commit takes the record from 7 to
8 clicks in one attempt. -/
theorem C8_witness :
    increment_click_async DbMode.ok [⟨"a", "u", 7, true, none⟩] "a" =
      (bumpFirst [⟨"a", "u", 7, true, none⟩] "a", 1) ∧
    (bumpFirst [⟨"a", "u", 7, true, none⟩] "a").find?
      (fun l => l.slug == "a") = some ⟨"a", "u", 8, true, none⟩ :=
  C8_click_counter_exact_once.1 [⟨"a", "u", 7, true, none⟩] "a"
    ⟨"a", "u", 7, true, none⟩ rfl

/-- Claim C1 as stated is false: here the cached entry for "wxyz" has
`expires_at = 5 < 10 = now` (and its cache TTL, 1000, has not elapsed), yet
`resolve` does not return Gone(expired) — the delete-on-read happens inside
`get_cached_link`, which reports a miss, so the resolver falls through to
the durable store, whose record is active and non-expired; the call returns
a 302 redirect to the durable URL and even re-populates the cache slot for
the slug. -/
theorem C1_counterexample :
    rget 10 [⟨linkKey "wxyz", RVal.js ⟨"cachedU", true, some 5⟩, some 1000⟩]
      (linkKey "wxyz") = some (RVal.js ⟨"cachedU", true, some 5⟩) ∧
    (10 : Nat) > 5 ∧
    (redirect_short_url (some CacheHealth.ok) 10
      [⟨linkKey "wxyz", RVal.js ⟨"cachedU", true, some 5⟩, some 1000⟩]
      [⟨"wxyz", "dbU", 0, true, none⟩] "wxyz").1 =
      HttpResult.redirect "dbU" ∧
    (redirect_short_url (some CacheHealth.ok) 10
      [⟨linkKey "wxyz", RVal.js ⟨"cachedU", true, some 5⟩, some 1000⟩]
      [⟨"wxyz", "dbU", 0, true, none⟩] "wxyz").1 ≠
      HttpResult.goneExpired ∧
    rget 10 (redirect_short_url (some CacheHealth.ok) 10
      [⟨linkKey "wxyz", RVal.js ⟨"cachedU", true, some 5⟩, some 1000⟩]
      [⟨"wxyz", "dbU", 0, true, none⟩] "wxyz").2.1 (linkKey "wxyz") ≠
      none := by
  refine ⟨rfl, by decide, rfl, by decide, by decide⟩

/-- Claim C1 amended: on a resolve call whose cached entry for the slug has
a non-null `expires_at` earlier than the current time, the stale entry is
always deleted on read, and the call falls through to the durable store;
when the durable record exists, is active and is itself past its
`expires_at`, the call returns Gone(expired) and leaves no cache entry for
the slug, so a following resolve for the same slug must read the durable
store (and gets Gone(expired) again). -/
theorem C1_amended_stale_expired
    (now : Nat) (st : RedisState) (db : List LinkRec) (slug : String)
    (d : CacheDict) (ce e2 : Nat) (link : LinkRec)
    (hnorm : pyNormalize slug = slug)
    (hne : slug ≠ "")
    (hres : slug ∉ RESERVED_SLUGS)
    (hcache : rget now st (linkKey slug) = some (RVal.js d))
    (hde : d.expires_at = some ce)
    (hclt : now > ce)
    (hfind : db.find? (fun l => l.slug == slug) = some link)
    (hact : link.is_active = true)
    (hle : link.expires_at = some e2)
    (he2 : now > e2) :
    (redirect_short_url (some CacheHealth.ok) now st db slug).1 =
      HttpResult.goneExpired ∧
    rget now (redirect_short_url (some CacheHealth.ok) now st db
      slug).2.1 (linkKey slug) = none ∧
    (redirect_short_url (some CacheHealth.ok) now
      (redirect_short_url (some CacheHealth.ok) now st db slug).2.1 db
      slug).2.2.dbReads = 1 ∧
    (redirect_short_url (some CacheHealth.ok) now
      (redirect_short_url (some CacheHealth.ok) now st db slug).2.1 db
      slug).1 = HttpResult.goneExpired := by
  have hcall : redirect_short_url (some CacheHealth.ok) now st db slug =
      (HttpResult.goneExpired, rdel st (linkKey slug), ⟨1, 0, 1, 1, 0, 0⟩) := by
    simp [redirect_short_url, get_cached_link, invalidate_link_cache,
      tryCache, hnorm, hne, hres, hcache, hde, hclt, hfind, hact,
      LinkRec.is_expired, hle, he2, Effects.add]
  have hcall2 : redirect_short_url (some CacheHealth.ok) now
      (rdel st (linkKey slug)) db slug =
      (HttpResult.goneExpired, rdel st (linkKey slug), ⟨1, 0, 0, 1, 0, 0⟩) := by
    simp [redirect_short_url, get_cached_link, tryCache, hnorm, hne, hres,
      rget_rdel_self, hfind, hact, LinkRec.is_expired, hle, he2, Effects.add]
  rw [hcall]
  exact ⟨rfl, rget_rdel_self now st (linkKey slug),
    by rw [hcall2], by rw [hcall2]⟩

/-- Concrete instance of the amended C1: stale-expired cache entry, durable
record also expired; the first call invalidates and returns Gone(expired),
the second must read the durable store. -/
theorem C1_witness :
    (redirect_short_url (some CacheHealth.ok) 10
      [⟨linkKey "wxyz", RVal.js ⟨"cachedU", true, some 5⟩, some 1000⟩]
      [⟨"wxyz", "dbU", 0, true, some 5⟩] "wxyz").1 =
      HttpResult.goneExpired ∧
    rget 10 (redirect_short_url (some CacheHealth.ok) 10
      [⟨linkKey "wxyz", RVal.js ⟨"cachedU", true, some 5⟩, some 1000⟩]
      [⟨"wxyz", "dbU", 0, true, some 5⟩] "wxyz").2.1 (linkKey "wxyz") =
      none ∧
    (redirect_short_url (some CacheHealth.ok) 10
      (redirect_short_url (some CacheHealth.ok) 10
        [⟨linkKey "wxyz", RVal.js ⟨"cachedU", true, some 5⟩, some 1000⟩]
        [⟨"wxyz", "dbU", 0, true, some 5⟩] "wxyz").2.1
      [⟨"wxyz", "dbU", 0, true, some 5⟩] "wxyz").2.2.dbReads = 1 ∧
    (redirect_short_url (some CacheHealth.ok) 10
      (redirect_short_url (some CacheHealth.ok) 10
        [⟨linkKey "wxyz", RVal.js ⟨"cachedU", true, some 5⟩, some 1000⟩]
        [⟨"wxyz", "dbU", 0, true, some 5⟩] "wxyz").2.1
      [⟨"wxyz", "dbU", 0, true, some 5⟩] "wxyz").1 =
      HttpResult.goneExpired :=
  C1_amended_stale_expired 10
    [⟨linkKey "wxyz", RVal.js ⟨"cachedU", true, some 5⟩, some 1000⟩]
    [⟨"wxyz", "dbU", 0, true, some 5⟩] "wxyz" ⟨"cachedU", true, some 5⟩
    5 5 ⟨"wxyz", "dbU", 0, true, some 5⟩ (by decide) (by decide) (by decide)
    rfl rfl (by decide) rfl rfl rfl (by decide)

/-- Claim C5: every single resolve call performs at most one cache
write-back and at most one cache invalidation, dispatches the click counter
exactly once iff it returns a redirect target, and performs zero writes to
the durable store within the resolution path. -/
theorem C5_resolution_frame (c : Option CacheHealth) (now : Nat)
    (st : RedisState) (db : List LinkRec) (rawSlug : String) :
    (redirect_short_url c now st db rawSlug).2.2.cacheWrites ≤ 1 ∧
    (redirect_short_url c now st db rawSlug).2.2.cacheInvalidations ≤ 1 ∧
    (redirect_short_url c now st db rawSlug).2.2.dbWrites = 0 ∧
    ((redirect_short_url c now st db rawSlug).2.2.clickDispatches = 1 ↔
      ∃ u, (redirect_short_url c now st db rawSlug).1 =
        HttpResult.redirect u) := by
  by_cases h0 : pyNormalize rawSlug = ""
  · simp [redirect_short_url, h0]
  · by_cases h1 : pyNormalize rawSlug ∈ RESERVED_SLUGS
    · simp [redirect_short_url, h0, h1]
    · rcases hg : get_cached_link c now st (pyNormalize rawSlug) with
        ⟨st1, data, e1⟩
      have heff := get_cached_link_eff c now st (pyNormalize rawSlug)
      rw [hg] at heff
      have hw : e1.cacheWrites = 0 := heff.1
      have hi : e1.cacheInvalidations ≤ 1 := heff.2.1
      have hdw : e1.dbWrites = 0 := heff.2.2.2.1
      have hcd : e1.clickDispatches = 0 := heff.2.2.2.2
      rcases data with _ | d
      · rcases hf : db.find? (fun l => l.slug == pyNormalize rawSlug) with
          _ | link
        · simp only [redirect_short_url, h0, h1, hg, hf, if_false]
          refine ⟨by simp [hw], by simpa using hi, by simp [hdw], ?_⟩
          simp [hcd]
        · cases ha : link.is_active
          · simp only [redirect_short_url, if_neg h0, if_neg h1, hg, hf, ha]
            refine ⟨by simp [hw], by simpa using hi, by simp [hdw], ?_⟩
            simp [hcd]
          · cases hexp : link.is_expired now
            · rcases hcl : cache_link c now st1 (pyNormalize rawSlug)
                link.to_cache_dict with ⟨st2, b, e3⟩
              have jeff := cache_link_eff c now st1 (pyNormalize rawSlug)
                link.to_cache_dict 3600
              rw [hcl] at jeff
              have jw : e3.cacheWrites ≤ 1 := jeff.1
              have ji : e3.cacheInvalidations = 0 := jeff.2.1
              have jdw : e3.dbWrites = 0 := jeff.2.2.2.1
              have jcd : e3.clickDispatches = 0 := jeff.2.2.2.2
              simp only [redirect_short_url, if_neg h0, if_neg h1, hg, hf,
                ha, hexp, hcl]
              refine ⟨?_, ?_, ?_, ?_⟩
              · simp only [Bool.not_true, if_false, Effects.add_cacheWrites]
                simp [hw]
                omega
              · simp only [Bool.not_true, if_false,
                  Effects.add_cacheInvalidations]
                simp [ji]
                omega
              · simp [hdw, jdw]
              · simp [hcd, jcd]
            · simp only [redirect_short_url, if_neg h0, if_neg h1, hg, hf,
                ha, hexp]
              refine ⟨by simp [hw], by simpa using hi, by simp [hdw], ?_⟩
              simp [hcd]
      · obtain ⟨hst, he1, hno⟩ := get_cached_link_hit c now st st1
          (pyNormalize rawSlug) d e1 hg
        subst hst
        subst he1
        cases ha : d.is_active
        · simp only [redirect_short_url, if_neg h0, if_neg h1, hg, ha]
          simp
        · rcases hde : d.expires_at with _ | e
          · simp only [redirect_short_url, if_neg h0, if_neg h1, hg, ha, hde]
            simp
          · have hne : ¬ now > e := hno e hde
            simp only [redirect_short_url, if_neg h0, if_neg h1, hg, ha,
              hde, if_neg hne]
            simp

end Savlinks
